import Mathlib

/-!
Verification of the Marqeta JIT-funding demo (src/lib/marqeta.ts and the
API route handlers under src/pages/api/marqeta and src/unnamed).

The TypeScript code is shallowly embedded: every upstream HTTP call is a
function from the request payload the code builds to the upstream's answer
(an `Except` of an error or a response record), supplied through an
environment structure.  Ambient nondeterminism (the clock behind
`Date.now()` / `new Date()`, the RNG behind `Math.random()`) is likewise
passed in as environment fields.  Each embedded operation returns, next to
its result, the updated in-memory resource registry and the list of
outbound calls it issued, so that statements about "no upstream call is
made" or "the registry is unchanged" are directly expressible.
-/

namespace JIT

/-- character of a single decimal digit, as produced by decimal printing. -/
def digitChar (d : ℕ) : Char := Char.ofNat (48 + d)

/-- fuel-driven accumulator loop behind decimal printing of a natural number;
fuel `n + 1` always suffices for input `n`. -/
def natDigitsAux : ℕ → ℕ → List Char → List Char
  | 0, _, acc => acc
  | fuel + 1, n, acc =>
    if n = 0 then acc else natDigitsAux fuel (n / 10) (digitChar (n % 10) :: acc)

/-- decimal digit list of a positive natural number (empty for zero). -/
def natDigits (n : ℕ) : List Char := natDigitsAux (n + 1) n []

/-- JavaScript `Number#toString` on a natural number: its decimal digits. -/
def natToString (n : ℕ) : String := if n = 0 then "0" else String.mk (natDigits n)

/-- left-pad a digit list with zeros to a given width. -/
def padZeros (w : ℕ) (l : List Char) : List Char := List.replicate (w - l.length) '0' ++ l

/-- JavaScript `Number#toString` on a rational with a finite decimal expansion:
sign, integer part, and (when the denominator is not 1) the exact fractional
digits.  The values the embedded code prints are integers or short decimals,
where this agrees with JavaScript exactly; the final fallback branch (infinite
decimal expansion) is unreachable from those values. -/
def decimalRepr (q : ℚ) : String :=
  let sign := if q.num < 0 then "-" else ""
  let n := q.num.natAbs
  match (List.range 65).find? (fun k => 10 ^ k % q.den == 0) with
  | some 0 => sign ++ natToString n
  | some (k + 1) =>
    let p := 10 ^ (k + 1)
    let scaled := n * p / q.den
    sign ++ natToString (scaled / p) ++ "." ++ String.mk (padZeros (k + 1) (natDigits (scaled % p)))
  | none => sign ++ natToString n ++ "/" ++ natToString q.den

/-- JavaScript `Math.round`: round half toward positive infinity. -/
def jsRound (q : ℚ) : ℤ := ⌊q + 1 / 2⌋

/-- JavaScript `String#slice(-n)`: the last `n` characters (the whole string
when it is shorter than `n`). -/
def jsSliceLast (s : String) (n : ℕ) : String :=
  String.mk (s.toList.drop (s.toList.length - n))

/-- JavaScript `String#substring a b`: characters from index `a` (inclusive)
to `b` (exclusive). -/
def jsSubstring (s : String) (a b : ℕ) : String :=
  String.mk ((s.toList.drop a).take (b - a))

/-- JavaScript `String#replace(/\s/g, '')`: the string with all whitespace
characters removed. -/
def stripSpaces (s : String) : String :=
  String.mk (s.toList.filter (fun c => !c.isWhitespace))

/-- test of the PAN regex `^\d{13,19}$` applied, as in nfc-pay.ts line 33, to
the PAN with whitespace removed. -/
def validPanFormat (s : String) : Bool :=
  let t := (stripSpaces s).toList
  13 ≤ t.length && t.length ≤ 19 && t.all (fun c => c.isDigit)

/-- the string a JavaScript template literal renders for a possibly-undefined
value (used for `token.split('_')[2]`). -/
def jsIndex (l : List String) (i : ℕ) : String := l.getD i "undefined"

/-- generateToken (src/lib/marqeta.ts lines 89–94).  `now` is the ambient
`Date.now()` value and `rnd` the ambient `Math.random().toString(36)` string;
the code keeps the last 8 digits of the timestamp and characters 2–5 of the
random string. -/
def generateToken (pfx : String) (now : ℕ) (rnd : String) : String :=
  pfx ++ "_" ++ jsSliceLast (natToString now) 8 ++ "_" ++ jsSubstring rnd 2 6

/-- hard-coded user balance limit, in cents (src/lib/marqeta.ts line 14). -/
def USER_BALANCE_LIMIT : ℕ := 10000

/-- fields of an upstream funding-source record that the code reads. -/
structure FundingSourceEntity where
  token : String
  name : String
deriving DecidableEq

/-- fields of an upstream card-product record that the code reads. -/
structure CardProductEntity where
  token : String
  name : String
deriving DecidableEq

/-- fields of an upstream cardholder-user record that the code reads. -/
structure UserEntity where
  token : String
  first_name : String
  last_name : String
deriving DecidableEq

/-- fields of an upstream card record that the code reads. -/
structure CardEntity where
  token : String
  pan : String
  cvv_number : String
  expiration : String
  state : String
deriving DecidableEq

/-- fields of an upstream velocity-control record that the code reads. -/
structure VelocityEntity where
  token : String
  velocity_window : String
deriving DecidableEq

/-- the in-memory resource registry (src/lib/marqeta.ts lines 17–23), five
slots that start out empty. -/
structure Resources where
  fundingSource : Option FundingSourceEntity := none
  cardProduct : Option CardProductEntity := none
  user : Option UserEntity := none
  card : Option CardEntity := none
  velocityControl : Option VelocityEntity := none
deriving DecidableEq

/-- the registry before any setup run. -/
def emptyResources : Resources := {}

/-- payload of a program-funding-source creation request (lines 103–106). -/
structure FundingSourceReq where
  token : String
  name : String
deriving DecidableEq

/-- the `config` block of a card-product creation request (lines 134–152). -/
structure CardProductConfig where
  payment_instrument : String
  ecommerce : Bool
  atm : Bool
  activate_upon_issue : Bool
  funding_source_token : String
  refunds_destination : String
  enabled : Bool
deriving DecidableEq

/-- payload of a card-product creation request (lines 130–153). -/
structure CardProductReq where
  token : String
  name : String
  start_date : String
  config : CardProductConfig
deriving DecidableEq

/-- payload of a cardholder-user creation request (lines 167–177). -/
structure UserReq where
  token : String
  first_name : String
  last_name : String
  email : String
  balance_limit : ℕ
  notes : String
deriving DecidableEq

/-- payload of a card creation request, with the `show_pan` and
`show_cvv_number` query flags of line 201. -/
structure CardReq where
  token : String
  user_token : String
  card_product_token : String
  notes : String
  show_pan : Bool
  show_cvv_number : Bool
deriving DecidableEq

/-- payload of a velocity-control creation request (lines 212–221). -/
structure VelocityReq where
  name : String
  user_token : String
  amount_limit : ℕ
  currency_code : String
  velocity_window : String
  active : Bool
deriving DecidableEq

/-- the fixed `card_acceptor` block of a simulated authorization (lines 235–243). -/
structure CardAcceptor where
  mid : String
  name : String
  street_address : String
  city : String
  state : String
  zip : String
  country_code : String
deriving DecidableEq

/-- the merchant constant of simulateTransaction. -/
def testMerchant : CardAcceptor :=
  { mid := "1234567890", name := "Test Merchant", street_address := "123 Main St",
    city := "San Francisco", state := "CA", zip := "94105", country_code := "USA" }

/-- webhook delivery block optionally attached to an authorization (lines 245–249). -/
structure WebhookCfg where
  endpoint : String
  username : String
  password : String
deriving DecidableEq

/-- payload of an authorization-simulation request (lines 232–250); the
`amount` field is a string, built by `amount.toString()`. -/
structure AuthReq where
  amount : String
  card_token : String
  card_acceptor : CardAcceptor
  network : String
  webhook : Option WebhookCfg
deriving DecidableEq

/-- payload of a clearing-simulation request (lines 265–268); the `amount`
field is a number. -/
structure ClearReq where
  preceding_related_transaction_token : String
  amount : ℚ
deriving DecidableEq

/-- payload of the authorization request the PIN-payment endpoint builds
itself (process-pin-payment.ts lines 44–60). -/
structure PinAuthReq where
  amount : String
  card_token : String
  card_acceptor : CardAcceptor
  network : String
  payment_method : String
deriving DecidableEq

/-- a non-2xx upstream answer as thrown by marqetaRequest (lines 59–66):
the HTTP status and the parsed error payload (rendered opaquely as a string;
as a JavaScript object it is always truthy). -/
structure ApiError where
  status : ℕ
  payload : String
deriving DecidableEq

/-- one outbound HTTP request, tagged with the payload the code built. -/
inductive OutboundCall
  | connectionTest
  | fundingSource (req : FundingSourceReq)
  | cardProduct (req : CardProductReq)
  | user (req : UserReq)
  | card (req : CardReq)
  | velocity (req : VelocityReq)
  | authorization (req : AuthReq)
  | clearing (req : ClearReq)
  | pinAuthorization (req : PinAuthReq)
deriving DecidableEq

/-- environment of one setup run: how the upstream answers each creation
request, whether the pre-flight probe succeeds, the four `generateToken`
outputs, and the clock-derived name fragments.  `timeHHMM` is
`toTimeString().split(' ')[0].substring(0,5).replace(':','')`, `timeHHcMM`
the same without the replace, `dateStr` the `toISOString` date part. -/
structure SetupEnv where
  connectionOk : Bool
  fundingResp : FundingSourceReq → Except ApiError FundingSourceEntity
  cardProductResp : CardProductReq → Except ApiError CardProductEntity
  userResp : UserReq → Except ApiError UserEntity
  cardResp : CardReq → Except ApiError CardEntity
  velocityResp : VelocityReq → Except ApiError VelocityEntity
  fundTok : String
  prodTok : String
  userTok : String
  cardTok : String
  timeHHMM : String
  timeHHcMM : String
  dateStr : String

/-- funding-source request built at lines 101–106. -/
def fundingReqOf (env : SetupEnv) : FundingSourceReq :=
  { token := env.fundTok, name := "🚀 JIT-OneClick-" ++ env.timeHHMM }

/-- the hard-coded fallback record of lines 115–118. -/
def defaultFundingSource : FundingSourceEntity :=
  { token := "sandbox_program_funding", name := "Default Sandbox Program Funding" }

/-- createProgramFundingSource (lines 99–122): on upstream failure it swallows
the error and substitutes the sandbox default; in both branches the resulting
record is stored into the registry slot. -/
def createProgramFundingSource (env : SetupEnv) (rs : Resources) :
    FundingSourceEntity × Resources × List OutboundCall :=
  let req := fundingReqOf env
  match env.fundingResp req with
  | .ok d => (d, { rs with fundingSource := some d }, [.fundingSource req])
  | .error _ =>
    (defaultFundingSource, { rs with fundingSource := some defaultFundingSource },
      [.fundingSource req])

/-- card-product request built at lines 128–153. -/
def cardProductReqOf (env : SetupEnv) (fundingSourceToken : String) : CardProductReq :=
  { token := env.prodTok
    name := "⚡ OneClick-Card-" ++ env.timeHHMM
    start_date := "2025-01-01"
    config :=
      { payment_instrument := "VIRTUAL_PAN"
        ecommerce := true
        atm := false
        activate_upon_issue := true
        funding_source_token := fundingSourceToken
        refunds_destination := "PROGRAM_FUNDING_SOURCE"
        enabled := true } }

/-- createCardProduct (lines 127–158): upstream failure propagates; on success
the created record is stored into the registry slot. -/
def createCardProduct (env : SetupEnv) (fundingSourceToken : String) (rs : Resources) :
    Except ApiError CardProductEntity × Resources × List OutboundCall :=
  let req := cardProductReqOf env fundingSourceToken
  match env.cardProductResp req with
  | .ok d => (.ok d, { rs with cardProduct := some d }, [.cardProduct req])
  | .error e => (.error e, rs, [.cardProduct req])

/-- user request built at lines 164–177 (no caller passes `userData`). -/
def userReqOf (env : SetupEnv) : UserReq :=
  { token := env.userTok
    first_name := "OneClick"
    last_name := "User-" ++ env.timeHHcMM
    email := "oneclick-" ++ jsIndex (env.userTok.splitOn "_") 2 ++ "@test.marqeta"
    balance_limit := USER_BALANCE_LIMIT
    notes := "Created for One-Click Pay testing - " ++ env.dateStr ++ " " ++ env.timeHHcMM }

/-- createUser (lines 163–182). -/
def createUser (env : SetupEnv) (rs : Resources) :
    Except ApiError UserEntity × Resources × List OutboundCall :=
  let req := userReqOf env
  match env.userResp req with
  | .ok d => (.ok d, { rs with user := some d }, [.user req])
  | .error e => (.error e, rs, [.user req])

/-- card request built at lines 188–197, sent with `show_pan` and
`show_cvv_number` enabled. -/
def cardReqOf (env : SetupEnv) (userToken cardProductToken : String) : CardReq :=
  { token := env.cardTok
    user_token := userToken
    card_product_token := cardProductToken
    notes := "Virtual card for One-Click Pay - " ++ env.timeHHMM
    show_pan := true
    show_cvv_number := true }

/-- createCard (lines 187–206). -/
def createCard (env : SetupEnv) (userToken cardProductToken : String) (rs : Resources) :
    Except ApiError CardEntity × Resources × List OutboundCall :=
  let req := cardReqOf env userToken cardProductToken
  match env.cardResp req with
  | .ok d => (.ok d, { rs with card := some d }, [.card req])
  | .error e => (.error e, rs, [.card req])

/-- velocity-control request built at lines 211–221. -/
def velocityReqOf (userToken : String) : VelocityReq :=
  { name := "Daily Spend Limit"
    user_token := userToken
    amount_limit := USER_BALANCE_LIMIT
    currency_code := "USD"
    velocity_window := "DAY"
    active := true }

/-- createVelocityControl (lines 211–226). -/
def createVelocityControl (env : SetupEnv) (userToken : String) (rs : Resources) :
    Except ApiError VelocityEntity × Resources × List OutboundCall :=
  let req := velocityReqOf userToken
  match env.velocityResp req with
  | .ok d => (.ok d, { rs with velocityControl := some d }, [.velocity req])
  | .error e => (.error e, rs, [.velocity req])

/-- result of setupJITFunding: the success record of lines 332–339 or the
failure record of lines 342–345. -/
inductive SetupResult
  | ok (fundingSource : FundingSourceEntity) (cardProduct : CardProductEntity)
      (user : UserEntity) (card : CardEntity) (velocityControl : VelocityEntity)
  | fail (error : String)
deriving DecidableEq

/-- the message of the `Error` thrown at line 304 when the probe fails. -/
def connectionFailureMsg : String :=
  "Failed to connect to Marqeta API. Please check your credentials."

/-- the string the catch block at line 344 reports for an upstream error:
`error.error || error.message`, and the payload object is always truthy. -/
def apiErrorMsg (e : ApiError) : String := e.payload

/-- setupJITFunding (lines 296–347): probe, then the five creation steps in
order, threading each returned token into the next request; any thrown
upstream error after the funding-source step aborts the run.  The returned
triple is the result, the registry after the run, and the outbound calls in
order (the probe of testConnection included). -/
def setupJITFunding (env : SetupEnv) (rs : Resources) :
    SetupResult × Resources × List OutboundCall :=
  if env.connectionOk = false then
    (.fail connectionFailureMsg, rs, [.connectionTest])
  else
    let (fs, rs1, c1) := createProgramFundingSource env rs
    match createCardProduct env fs.token rs1 with
    | (.error e, rs2, c2) =>
      (.fail (apiErrorMsg e), rs2, .connectionTest :: (c1 ++ c2))
    | (.ok cp, rs2, c2) =>
      match createUser env rs2 with
      | (.error e, rs3, c3) =>
        (.fail (apiErrorMsg e), rs3, .connectionTest :: (c1 ++ c2 ++ c3))
      | (.ok u, rs3, c3) =>
        match createCard env u.token cp.token rs3 with
        | (.error e, rs4, c4) =>
          (.fail (apiErrorMsg e), rs4, .connectionTest :: (c1 ++ c2 ++ c3 ++ c4))
        | (.ok cd, rs4, c4) =>
          match createVelocityControl env u.token rs4 with
          | (.error e, rs5, c5) =>
            (.fail (apiErrorMsg e), rs5, .connectionTest :: (c1 ++ c2 ++ c3 ++ c4 ++ c5))
          | (.ok v, rs5, c5) =>
            (.ok fs cp u cd v, rs5, .connectionTest :: (c1 ++ c2 ++ c3 ++ c4 ++ c5))

/-- an upstream transaction object: the two fields the handlers read or
overwrite, plus the remaining upstream fields, carried opaquely and never
touched by the local code. -/
structure Txn where
  token : String
  state : String
  rest : List (String × String)
deriving DecidableEq

/-- response body of an authorization simulation as the handlers consume it:
an optional `transaction` object and an optional opaque `gpa_order` object. -/
structure AuthResponse where
  transaction : Option Txn
  gpa_order : Option (List (String × String))
deriving DecidableEq

/-- environment of the transaction endpoints: how the upstream answers an
authorization, a clearing, and the PIN endpoint's own authorization call
(whose failure is surfaced as the response text, line 64 of
process-pin-payment.ts). -/
structure TxnEnv where
  authResult : AuthReq → Except ApiError AuthResponse
  clearResult : ClearReq → Except ApiError (List (String × String))
  pinAuthResult : PinAuthReq → Except String (List (String × String))

/-- authorization request built by simulateTransaction (lines 232–250):
the amount is stringified exactly as passed, with no unit conversion. -/
def authReqOf (cardToken : String) (amount : ℚ) (webhookEndpoint : Option String) : AuthReq :=
  { amount := decimalRepr amount
    card_token := cardToken
    card_acceptor := testMerchant
    network := "VISA"
    webhook := webhookEndpoint.map fun e =>
      { endpoint := e, username := "webhook_user", password := "webhook_password" } }

/-- simulateTransaction (lines 231–258). -/
def simulateTransaction (env : TxnEnv) (cardToken : String) (amount : ℚ)
    (webhookEndpoint : Option String) :
    Except ApiError AuthResponse × List OutboundCall :=
  let req := authReqOf cardToken amount webhookEndpoint
  (env.authResult req, [.authorization req])

/-- clearing request built by clearTransaction (lines 265–268): the amount is
divided by 100 (cents to dollars) before being sent. -/
def clearReqOf (transactionToken : String) (amount : ℚ) : ClearReq :=
  { preceding_related_transaction_token := transactionToken, amount := amount / 100 }

/-- clearTransaction (lines 263–276). -/
def clearTransaction (env : TxnEnv) (transactionToken : String) (amount : ℚ) :
    Except ApiError (List (String × String)) × List OutboundCall :=
  let req := clearReqOf transactionToken amount
  (env.clearResult req, [.clearing req])

/-- the `error?.status || 500` pattern of the catch blocks. -/
def statusOr500 (n : ℕ) : ℕ := if n = 0 then 500 else n

/-- result of the `simulate` action slice of the dispatcher
(src/pages/api/marqeta/setup.ts lines 72–94). -/
inductive SimulateActionResult
  | badRequest (error : String)
  | ok (data : AuthResponse)
  | upstreamFail (status : ℕ) (error : String)
deriving DecidableEq

/-- the `action === 'simulate'` branch of the dispatcher (setup.ts lines
72–94): after field validation it forwards `amount` to simulateTransaction
unchanged. -/
def setupApiSimulate (env : TxnEnv) (cardToken : Option String) (amount : Option ℚ)
    (webhookEndpoint : Option String) : SimulateActionResult × List OutboundCall :=
  match cardToken with
  | none => (.badRequest "cardToken is required", [])
  | some ct =>
    if ct = "" then (.badRequest "cardToken is required", [])
    else
      match amount with
      | none => (.badRequest "Valid amount is required", [])
      | some a =>
        if a ≤ 0 then (.badRequest "Valid amount is required", [])
        else
          match simulateTransaction env ct a webhookEndpoint with
          | (.ok d, cs) => (.ok d, cs)
          | (.error e, cs) => (.upstreamFail (statusOr500 e.status) (apiErrorMsg e), cs)

/-- request body of the NFC payment endpoint (nfc-pay.ts line 24); a missing
`autoClear` defaults to true. -/
structure NfcBody where
  pan : Option String
  amount : Option ℚ
  autoClear : Option Bool
deriving DecidableEq

/-- the `data` object of a 200 response of the NFC payment endpoint; absent
JSON keys are `none`. -/
structure NfcData where
  transaction : Option Txn
  gpa_order : Option (List (String × String))
  cleared : Option Bool
  warning : Option String
  cardLast4 : String
deriving DecidableEq

/-- response of the NFC payment endpoint. -/
inductive NfcResult
  | methodNotAllowed
  | validationError (error : String)
  | cardNotFound (error : String) (hint : String)
  | payOk (data : NfcData)
  | payFail (status : ℕ) (error : String)
deriving DecidableEq

/-- HTTP status of each NFC payment response shape. -/
def nfcStatus : NfcResult → ℕ
  | .methodNotAllowed => 405
  | .validationError _ => 400
  | .cardNotFound _ _ => 404
  | .payOk _ => 200
  | .payFail s _ => s

/-- the 404 message of nfc-pay.ts line 45. -/
def cardNotFoundMsg : String := "Card not found. Please setup JIT funding first."

/-- the 404 hint of nfc-pay.ts line 46. -/
def cardNotFoundHint : String :=
  "The PAN from the NFC card must match the card created in the system."

/-- the warning attached when auto-clear fails after authorization. -/
def autoClearWarning : String := "Transaction authorized but auto-clear failed"

/-- the NFC payment handler (src/pages/api/marqeta/nfc-pay.ts): validate the
PAN and amount, look the card up by exact PAN match against the registry,
authorize with the stored card token, and, when autoClear holds and the
authorization returned a (truthy) transaction token, clear; a clearing
failure is demoted to a warning on a 200 response. -/
def nfcPayHandler (env : TxnEnv) (rs : Resources) (method : String) (body : NfcBody) :
    NfcResult × List OutboundCall :=
  if method ≠ "POST" then (.methodNotAllowed, [])
  else
    match body.pan with
    | none => (.validationError "PAN (card number) is required", [])
    | some pan =>
      if pan = "" then (.validationError "PAN (card number) is required", [])
      else if ¬ validPanFormat pan then
        (.validationError "Invalid PAN format. Must be 13-19 digits", [])
      else
        match body.amount with
        | none => (.validationError "Valid amount is required", [])
        | some amount =>
          if amount ≤ 0 then (.validationError "Valid amount is required", [])
          else
            match rs.card with
            | none => (.cardNotFound cardNotFoundMsg cardNotFoundHint, [])
            | some card =>
              if card.pan ≠ pan then (.cardNotFound cardNotFoundMsg cardNotFoundHint, [])
              else
                let amountInCents : ℚ := (jsRound (amount * 100) : ℤ)
                let req := authReqOf card.token amountInCents none
                match env.authResult req with
                | .error e =>
                  (.payFail (statusOr500 e.status) (apiErrorMsg e), [.authorization req])
                | .ok tr =>
                  let autoClear := body.autoClear.getD true
                  match tr.transaction with
                  | some txn =>
                    if autoClear ∧ txn.token ≠ "" then
                      let creq := clearReqOf txn.token amountInCents
                      match env.clearResult creq with
                      | .ok _ =>
                        (.payOk { transaction := some { txn with state := "CLEARED" },
                                  gpa_order := tr.gpa_order, cleared := some true,
                                  warning := none, cardLast4 := jsSliceLast pan 4 },
                          [.authorization req, .clearing creq])
                      | .error _ =>
                        (.payOk { transaction := some txn, gpa_order := tr.gpa_order,
                                  cleared := none, warning := some autoClearWarning,
                                  cardLast4 := jsSliceLast pan 4 },
                          [.authorization req, .clearing creq])
                    else
                      (.payOk { transaction := some txn, gpa_order := tr.gpa_order,
                                cleared := none, warning := none,
                                cardLast4 := jsSliceLast pan 4 },
                        [.authorization req])
                  | none =>
                    (.payOk { transaction := none, gpa_order := tr.gpa_order,
                              cleared := none, warning := none,
                              cardLast4 := jsSliceLast pan 4 },
                      [.authorization req])

/-- request body of the PIN endpoints: `{pan, pin, amount}`. -/
structure PinBody where
  pan : Option String
  pin : Option String
  amount : Option ℚ
deriving DecidableEq

/-- response of the PAN-based PIN payment endpoint. -/
inductive PinResult
  | methodNotAllowed
  | badRequest (error : String)
  | unauthorized (error : String)
  | payOk (transaction : List (String × String)) (amount : ℚ) (cardLast4 : String)
  | serverError (error : String)
deriving DecidableEq

/-- HTTP status of each PIN payment response shape. -/
def pinStatus : PinResult → ℕ
  | .methodNotAllowed => 405
  | .badRequest _ => 400
  | .unauthorized _ => 401
  | .payOk _ _ _ => 200
  | .serverError _ => 500

/-- the universal demo PIN (process-pin-payment.ts line 5). -/
def DEMO_PIN : String := "123456"

/-- JavaScript truthiness of a possibly-absent string field. -/
def truthyStr : Option String → Bool
  | none => false
  | some s => s ≠ ""

/-- JavaScript truthiness of a possibly-absent numeric field. -/
def truthyNum : Option ℚ → Bool
  | none => false
  | some a => a ≠ 0

/-- authorization request the PIN endpoint builds itself (process-pin-payment.ts
lines 44–60): `(amount * 100).toString()` and the PAN passed as `card_token`. -/
def pinAuthReqOf (pan : String) (amount : ℚ) : PinAuthReq :=
  { amount := decimalRepr (amount * 100)
    card_token := pan
    card_acceptor := { testMerchant with name := "PIN Payment" }
    network := "VISA"
    payment_method := "pin_entry" }

/-- the PAN-based PIN payment handler (src/pages/api/marqeta/process-pin-payment.ts):
reject non-POST, then missing/falsy fields, then a PIN whose length is not 6,
then a PIN other than the demo PIN, and only then call upstream. -/
def processPinPaymentHandler (env : TxnEnv) (method : String) (body : PinBody) :
    PinResult × List OutboundCall :=
  if method ≠ "POST" then (.methodNotAllowed, [])
  else if ¬ (truthyStr body.pan ∧ truthyStr body.pin ∧ truthyNum body.amount) then
    (.badRequest "Missing required fields", [])
  else
    let pan := body.pan.getD ""
    let pin := body.pin.getD ""
    let amount := body.amount.getD 0
    if pin.length ≠ 6 then (.badRequest "Invalid PIN length", [])
    else if pin ≠ DEMO_PIN then (.unauthorized "Invalid PIN. Use demo PIN: 123456", [])
    else
      let req := pinAuthReqOf pan amount
      match env.pinAuthResult req with
      | .ok txn => (.payOk txn amount (jsSliceLast pan 4), [.pinAuthorization req])
      | .error t => (.serverError ("Marqeta API error: " ++ t), [.pinAuthorization req])

/-- request body of the card-token PIN payment endpoint (src/unnamed/part_001
line 19): `{cardToken, pin, amount}`. -/
structure TokenPinBody where
  cardToken : Option String
  pin : Option String
  amount : Option ℚ
deriving DecidableEq

/-- the `data` object of a 200 response of the card-token PIN payment
endpoint; absent JSON keys are `none`. -/
structure TokenPinData where
  transaction : Option Txn
  gpa_order : Option (List (String × String))
  cleared : Option Bool
  cardLast4 : Option String
  amount : Option ℚ
  warning : Option String
deriving DecidableEq

/-- response of the card-token PIN payment endpoint. -/
inductive TokenPinResult
  | methodNotAllowed
  | badRequest (error : String)
  | unauthorized (error : String)
  | payOk (data : TokenPinData)
  | payFail (status : ℕ) (error : String)
deriving DecidableEq

/-- the card-token PIN payment handler (src/unnamed/part_001): validate, then
authorize through simulateTransaction with the rounded cent amount, and clear
unconditionally when the authorization returned a truthy transaction token;
a clearing failure is demoted to a warning on a 200 response. -/
def processPaymentHandler (env : TxnEnv) (method : String) (body : TokenPinBody) :
    TokenPinResult × List OutboundCall :=
  if method ≠ "POST" then (.methodNotAllowed, [])
  else if ¬ (truthyStr body.cardToken ∧ truthyStr body.pin ∧ truthyNum body.amount) then
    (.badRequest "Missing required fields", [])
  else
    let cardToken := body.cardToken.getD ""
    let pin := body.pin.getD ""
    let amount := body.amount.getD 0
    if pin.length ≠ 6 then (.badRequest "Invalid PIN length", [])
    else if pin ≠ DEMO_PIN then (.unauthorized "Invalid PIN. Use demo PIN: 123456", [])
    else
      let amountInCents : ℚ := (jsRound (amount * 100) : ℤ)
      let req := authReqOf cardToken amountInCents none
      match env.authResult req with
      | .error e => (.payFail (statusOr500 e.status) (apiErrorMsg e), [.authorization req])
      | .ok tr =>
        match tr.transaction with
        | some txn =>
          if txn.token ≠ "" then
            let creq := clearReqOf txn.token amountInCents
            match env.clearResult creq with
            | .ok _ =>
              (.payOk { transaction := some { txn with state := "CLEARED" },
                        gpa_order := tr.gpa_order, cleared := some true,
                        cardLast4 := some (jsSliceLast cardToken 4),
                        amount := some amount, warning := none },
                [.authorization req, .clearing creq])
            | .error _ =>
              (.payOk { transaction := some txn, gpa_order := tr.gpa_order,
                        cleared := none, cardLast4 := none, amount := none,
                        warning := some autoClearWarning },
                [.authorization req, .clearing creq])
          else
            (.payOk { transaction := some txn, gpa_order := tr.gpa_order,
                      cleared := none, cardLast4 := none, amount := none,
                      warning := none },
              [.authorization req])
        | none =>
          (.payOk { transaction := none, gpa_order := tr.gpa_order, cleared := none,
                    cardLast4 := none, amount := none, warning := none },
            [.authorization req])

/-- request body of the QR / one-click payment endpoint (src/unnamed/part_002
line 91): `{cardToken, amount, autoClear}`, autoClear defaulting to true. -/
structure QrBody where
  cardToken : Option String
  amount : Option ℚ
  autoClear : Option Bool
deriving DecidableEq

/-- the `data` object of a 200 response of the QR payment endpoint. -/
structure QrData where
  transaction : Option Txn
  gpa_order : Option (List (String × String))
  cleared : Option Bool
  warning : Option String
deriving DecidableEq

/-- response of the QR payment endpoint. -/
inductive QrResult
  | methodNotAllowed
  | validationError (error : String)
  | payOk (data : QrData)
  | payFail (status : ℕ) (error : String)
deriving DecidableEq

/-- the QR / one-click payment handler (second handler of src/unnamed/part_002):
validate the card token and amount, authorize with the rounded cent amount,
and clear when autoClear holds and the authorization returned a truthy
transaction token; a clearing failure is demoted to a warning. -/
def qrPayHandler (env : TxnEnv) (method : String) (body : QrBody) :
    QrResult × List OutboundCall :=
  if method ≠ "POST" then (.methodNotAllowed, [])
  else
    match body.cardToken with
    | none => (.validationError "cardToken is required", [])
    | some ct =>
      if ct = "" then (.validationError "cardToken is required", [])
      else
        match body.amount with
        | none => (.validationError "Valid amount is required", [])
        | some amount =>
          if amount ≤ 0 then (.validationError "Valid amount is required", [])
          else
            let amountInCents : ℚ := (jsRound (amount * 100) : ℤ)
            let req := authReqOf ct amountInCents none
            match env.authResult req with
            | .error e =>
              (.payFail (statusOr500 e.status) (apiErrorMsg e), [.authorization req])
            | .ok tr =>
              let autoClear := body.autoClear.getD true
              match tr.transaction with
              | some txn =>
                if autoClear ∧ txn.token ≠ "" then
                  let creq := clearReqOf txn.token amountInCents
                  match env.clearResult creq with
                  | .ok _ =>
                    (.payOk { transaction := some { txn with state := "CLEARED" },
                              gpa_order := tr.gpa_order, cleared := some true,
                              warning := none },
                      [.authorization req, .clearing creq])
                  | .error _ =>
                    (.payOk { transaction := some txn, gpa_order := tr.gpa_order,
                              cleared := none, warning := some autoClearWarning },
                      [.authorization req, .clearing creq])
                else
                  (.payOk { transaction := some txn, gpa_order := tr.gpa_order,
                            cleared := none, warning := none },
                    [.authorization req])
              | none =>
                (.payOk { transaction := none, gpa_order := tr.gpa_order,
                          cleared := none, warning := none },
                  [.authorization req])

/-- sample funding source returned by a permissive upstream. -/
def fsA : FundingSourceEntity := { token := "fund_11112222_ab1", name := "FS A" }

/-- sample card product returned by the upstream. -/
def cpA : CardProductEntity := { token := "prod_11112222_cd2", name := "CP A" }

/-- sample cardholder user returned by the upstream. -/
def uA : UserEntity := { token := "user_11112222_ef3", first_name := "OneClick", last_name := "User-12:30" }

/-- sample card returned by the upstream, carrying the demo PAN. -/
def cdA : CardEntity :=
  { token := "card_11112222_gh4", pan := "5112345123451234", cvv_number := "123",
    expiration := "1228", state := "ACTIVE" }

/-- sample velocity control returned by the upstream. -/
def vA : VelocityEntity := { token := "vel_tok_5", velocity_window := "DAY" }

/-- a setup environment in which the probe and every creation call succeed. -/
def setupEnvA : SetupEnv :=
  { connectionOk := true
    fundingResp := fun _ => .ok fsA
    cardProductResp := fun _ => .ok cpA
    userResp := fun _ => .ok uA
    cardResp := fun _ => .ok cdA
    velocityResp := fun _ => .ok vA
    fundTok := "fund_11112222_ab1"
    prodTok := "prod_11112222_cd2"
    userTok := "user_11112222_ef3"
    cardTok := "card_11112222_gh4"
    timeHHMM := "1230"
    timeHHcMM := "12:30"
    dateStr := "2026-01-02" }

/-- setupEnvA with the pre-flight probe failing. -/
def setupEnvConnFail : SetupEnv := { setupEnvA with connectionOk := false }

/-- setupEnvA with funding-source creation rejected upstream. -/
def setupEnvFundFail : SetupEnv :=
  { setupEnvA with fundingResp := fun _ => .error { status := 404, payload := "funding rejected" } }

/-- setupEnvA with card-product creation rejected upstream. -/
def setupEnvCpFail : SetupEnv :=
  { setupEnvA with cardProductResp := fun _ => .error { status := 400, payload := "card product rejected" } }

/-- setupEnvA with user creation rejected upstream. -/
def setupEnvUserFail : SetupEnv :=
  { setupEnvA with userResp := fun _ => .error { status := 400, payload := "user rejected" } }

/-- setupEnvA with card creation rejected upstream. -/
def setupEnvCardFail : SetupEnv :=
  { setupEnvA with cardResp := fun _ => .error { status := 400, payload := "card rejected" } }

/-- setupEnvA with velocity-control creation rejected upstream. -/
def setupEnvVelFail : SetupEnv :=
  { setupEnvA with velocityResp := fun _ => .error { status := 400, payload := "velocity rejected" } }

/-- sample authorized transaction object as returned by the upstream simulator. -/
def txnA : Txn := { token := "txn_tok_1", state := "PENDING", rest := [("amount", "1000")] }

/-- sample authorization response with a transaction and a JIT funding order. -/
def authRespA : AuthResponse :=
  { transaction := some txnA, gpa_order := some [("state", "COMPLETION")] }

/-- a transaction environment in which authorization and clearing succeed. -/
def txnEnvA : TxnEnv :=
  { authResult := fun _ => .ok authRespA
    clearResult := fun _ => .ok [("state", "CLEARED")]
    pinAuthResult := fun _ => .ok [("token", "sim_tok")] }

/-- txnEnvA with the clearing call rejected upstream. -/
def txnEnvClearFail : TxnEnv :=
  { txnEnvA with clearResult := fun _ => .error { status := 500, payload := "clearing rejected" } }

/-- a registry holding only the sample card, as after a successful setup. -/
def rsWithCardA : Resources := { card := some cdA }

/-- a failing probe short-circuits the whole run. -/
theorem setup_eq_connFail (env : SetupEnv) (rs : Resources) (h : env.connectionOk = false) :
    setupJITFunding env rs = (.fail connectionFailureMsg, rs, [.connectionTest]) := by
  simp [setupJITFunding, h]

/-- run equation when the probe and all five creation calls succeed. -/
theorem setup_eq_ok (env : SetupEnv) (rs : Resources)
    (fsE : FundingSourceEntity) (cpE : CardProductEntity) (uE : UserEntity)
    (cdE : CardEntity) (vE : VelocityEntity)
    (hc : env.connectionOk = true)
    (hf : ∀ r, env.fundingResp r = .ok fsE)
    (hcp : ∀ r, env.cardProductResp r = .ok cpE)
    (hu : ∀ r, env.userResp r = .ok uE)
    (hcd : ∀ r, env.cardResp r = .ok cdE)
    (hv : ∀ r, env.velocityResp r = .ok vE) :
    setupJITFunding env rs =
      (.ok fsE cpE uE cdE vE,
       { rs with fundingSource := some fsE, cardProduct := some cpE, user := some uE,
                 card := some cdE, velocityControl := some vE },
       [.connectionTest, .fundingSource (fundingReqOf env),
        .cardProduct (cardProductReqOf env fsE.token), .user (userReqOf env),
        .card (cardReqOf env uE.token cpE.token), .velocity (velocityReqOf uE.token)]) := by
  simp [setupJITFunding, createProgramFundingSource, createCardProduct, createUser,
        createCard, createVelocityControl, hc, hf, hcp, hu, hcd, hv]

/-- run equation when funding-source creation fails but every later call
succeeds: the run completes with the fallback record. -/
theorem setup_eq_fallbackOk (env : SetupEnv) (rs : Resources) (er : ApiError)
    (cpE : CardProductEntity) (uE : UserEntity) (cdE : CardEntity) (vE : VelocityEntity)
    (hc : env.connectionOk = true)
    (hf : ∀ r, env.fundingResp r = .error er)
    (hcp : ∀ r, env.cardProductResp r = .ok cpE)
    (hu : ∀ r, env.userResp r = .ok uE)
    (hcd : ∀ r, env.cardResp r = .ok cdE)
    (hv : ∀ r, env.velocityResp r = .ok vE) :
    setupJITFunding env rs =
      (.ok defaultFundingSource cpE uE cdE vE,
       { rs with fundingSource := some defaultFundingSource, cardProduct := some cpE,
                 user := some uE, card := some cdE, velocityControl := some vE },
       [.connectionTest, .fundingSource (fundingReqOf env),
        .cardProduct (cardProductReqOf env defaultFundingSource.token), .user (userReqOf env),
        .card (cardReqOf env uE.token cpE.token), .velocity (velocityReqOf uE.token)]) := by
  simp [setupJITFunding, createProgramFundingSource, createCardProduct, createUser,
        createCard, createVelocityControl, hc, hf, hcp, hu, hcd, hv]

/-- run equation when card-product creation fails after a successful
funding-source step: the funding source is already in the registry. -/
theorem setup_eq_cpFail (env : SetupEnv) (rs : Resources)
    (fsE : FundingSourceEntity) (er : ApiError)
    (hc : env.connectionOk = true)
    (hf : ∀ r, env.fundingResp r = .ok fsE)
    (hcp : ∀ r, env.cardProductResp r = .error er) :
    setupJITFunding env rs =
      (.fail (apiErrorMsg er),
       { rs with fundingSource := some fsE },
       [.connectionTest, .fundingSource (fundingReqOf env),
        .cardProduct (cardProductReqOf env fsE.token)]) := by
  simp [setupJITFunding, createProgramFundingSource, createCardProduct, hc, hf, hcp]

/-- run equation when user creation fails: funding source and card product
are already in the registry. -/
theorem setup_eq_userFail (env : SetupEnv) (rs : Resources)
    (fsE : FundingSourceEntity) (cpE : CardProductEntity) (er : ApiError)
    (hc : env.connectionOk = true)
    (hf : ∀ r, env.fundingResp r = .ok fsE)
    (hcp : ∀ r, env.cardProductResp r = .ok cpE)
    (hu : ∀ r, env.userResp r = .error er) :
    setupJITFunding env rs =
      (.fail (apiErrorMsg er),
       { rs with fundingSource := some fsE, cardProduct := some cpE },
       [.connectionTest, .fundingSource (fundingReqOf env),
        .cardProduct (cardProductReqOf env fsE.token), .user (userReqOf env)]) := by
  simp [setupJITFunding, createProgramFundingSource, createCardProduct, createUser,
        hc, hf, hcp, hu]

/-- run equation when card creation fails: funding source, card product and
user are already in the registry. -/
theorem setup_eq_cardFail (env : SetupEnv) (rs : Resources)
    (fsE : FundingSourceEntity) (cpE : CardProductEntity) (uE : UserEntity) (er : ApiError)
    (hc : env.connectionOk = true)
    (hf : ∀ r, env.fundingResp r = .ok fsE)
    (hcp : ∀ r, env.cardProductResp r = .ok cpE)
    (hu : ∀ r, env.userResp r = .ok uE)
    (hcd : ∀ r, env.cardResp r = .error er) :
    setupJITFunding env rs =
      (.fail (apiErrorMsg er),
       { rs with fundingSource := some fsE, cardProduct := some cpE, user := some uE },
       [.connectionTest, .fundingSource (fundingReqOf env),
        .cardProduct (cardProductReqOf env fsE.token), .user (userReqOf env),
        .card (cardReqOf env uE.token cpE.token)]) := by
  simp [setupJITFunding, createProgramFundingSource, createCardProduct, createUser,
        createCard, hc, hf, hcp, hu, hcd]

/-- run equation when velocity-control creation fails: the four earlier
entities are already in the registry. -/
theorem setup_eq_velFail (env : SetupEnv) (rs : Resources)
    (fsE : FundingSourceEntity) (cpE : CardProductEntity) (uE : UserEntity)
    (cdE : CardEntity) (er : ApiError)
    (hc : env.connectionOk = true)
    (hf : ∀ r, env.fundingResp r = .ok fsE)
    (hcp : ∀ r, env.cardProductResp r = .ok cpE)
    (hu : ∀ r, env.userResp r = .ok uE)
    (hcd : ∀ r, env.cardResp r = .ok cdE)
    (hv : ∀ r, env.velocityResp r = .error er) :
    setupJITFunding env rs =
      (.fail (apiErrorMsg er),
       { rs with fundingSource := some fsE, cardProduct := some cpE, user := some uE,
                 card := some cdE },
       [.connectionTest, .fundingSource (fundingReqOf env),
        .cardProduct (cardProductReqOf env fsE.token), .user (userReqOf env),
        .card (cardReqOf env uE.token cpE.token), .velocity (velocityReqOf uE.token)]) := by
  simp [setupJITFunding, createProgramFundingSource, createCardProduct, createUser,
        createCard, createVelocityControl, hc, hf, hcp, hu, hcd, hv]

/-- C1: in every setup run whose upstream creation calls all succeed, the
card-product creation request embeds the token of the funding source returned
by step 2, the card creation request embeds both the returned user token and
the returned card-product token, and the velocity-control creation request
embeds the returned user token; the run returns exactly those five entities. -/
theorem C1_setup_referential_chain
    (env : SetupEnv) (rs : Resources)
    (fsE : FundingSourceEntity) (cpE : CardProductEntity) (uE : UserEntity)
    (cdE : CardEntity) (vE : VelocityEntity)
    (hc : env.connectionOk = true)
    (hf : ∀ r, env.fundingResp r = .ok fsE)
    (hcp : ∀ r, env.cardProductResp r = .ok cpE)
    (hu : ∀ r, env.userResp r = .ok uE)
    (hcd : ∀ r, env.cardResp r = .ok cdE)
    (hv : ∀ r, env.velocityResp r = .ok vE) :
    setupJITFunding env rs =
      (.ok fsE cpE uE cdE vE,
       { rs with fundingSource := some fsE, cardProduct := some cpE, user := some uE,
                 card := some cdE, velocityControl := some vE },
       [.connectionTest, .fundingSource (fundingReqOf env),
        .cardProduct (cardProductReqOf env fsE.token), .user (userReqOf env),
        .card (cardReqOf env uE.token cpE.token), .velocity (velocityReqOf uE.token)])
    ∧ (cardProductReqOf env fsE.token).config.funding_source_token = fsE.token
    ∧ (cardReqOf env uE.token cpE.token).user_token = uE.token
    ∧ (cardReqOf env uE.token cpE.token).card_product_token = cpE.token
    ∧ (velocityReqOf uE.token).user_token = uE.token :=
  ⟨setup_eq_ok env rs fsE cpE uE cdE vE hc hf hcp hu hcd hv, rfl, rfl, rfl, rfl⟩

/-- witness for C1 at a concrete all-succeeding environment. -/
theorem C1_setup_referential_chain_witness :
    (setupJITFunding setupEnvA emptyResources =
      (.ok fsA cpA uA cdA vA,
       { emptyResources with
           fundingSource := some fsA, cardProduct := some cpA,
           user := some uA, card := some cdA, velocityControl := some vA },
       [.connectionTest, .fundingSource (fundingReqOf setupEnvA),
        .cardProduct (cardProductReqOf setupEnvA fsA.token), .user (userReqOf setupEnvA),
        .card (cardReqOf setupEnvA uA.token cpA.token), .velocity (velocityReqOf uA.token)]))
    ∧ (cardProductReqOf setupEnvA fsA.token).config.funding_source_token = fsA.token
    ∧ (cardReqOf setupEnvA uA.token cpA.token).user_token = uA.token
    ∧ (cardReqOf setupEnvA uA.token cpA.token).card_product_token = cpA.token
    ∧ (velocityReqOf uA.token).user_token = uA.token :=
  C1_setup_referential_chain setupEnvA emptyResources fsA cpA uA cdA vA rfl
    (fun _ => rfl) (fun _ => rfl) (fun _ => rfl) (fun _ => rfl) (fun _ => rfl)

/-- C2 counterexample: a run in which card-product creation fails returns
Failure, yet the registry is not what it was before the call — the funding
source created earlier in the same run sits in its slot. -/
theorem C2_counterexample_registry_not_unchanged :
    (setupJITFunding setupEnvCpFail emptyResources).1 = .fail "card product rejected"
    ∧ (setupJITFunding setupEnvCpFail emptyResources).2.1.fundingSource = some fsA
    ∧ (setupJITFunding setupEnvCpFail emptyResources).2.1 ≠ emptyResources := by
  rw [setup_eq_cpFail setupEnvCpFail emptyResources fsA ⟨400, "card product rejected"⟩
    rfl (fun _ => rfl) (fun _ => rfl)]
  exact ⟨rfl, rfl, by decide⟩

/-- C2 amended: when one of steps card-product, user, card or velocity-control
creation fails, the run returns Failure and the failing step writes nothing,
but every entity created by an earlier successful step has already been
committed into its registry slot; only the slots of the failing and later
steps keep their pre-call contents. -/
theorem C2_amended_failed_setup_keeps_committed_entities :
    (∀ env rs fsE er, env.connectionOk = true → (∀ r, env.fundingResp r = .ok fsE) →
      (∀ r, env.cardProductResp r = .error er) →
      (setupJITFunding env rs).1 = .fail (apiErrorMsg er) ∧
      (setupJITFunding env rs).2.1 = { rs with fundingSource := some fsE })
    ∧ (∀ env rs fsE cpE er, env.connectionOk = true → (∀ r, env.fundingResp r = .ok fsE) →
      (∀ r, env.cardProductResp r = .ok cpE) → (∀ r, env.userResp r = .error er) →
      (setupJITFunding env rs).1 = .fail (apiErrorMsg er) ∧
      (setupJITFunding env rs).2.1 = { rs with fundingSource := some fsE, cardProduct := some cpE })
    ∧ (∀ env rs fsE cpE uE er, env.connectionOk = true → (∀ r, env.fundingResp r = .ok fsE) →
      (∀ r, env.cardProductResp r = .ok cpE) → (∀ r, env.userResp r = .ok uE) →
      (∀ r, env.cardResp r = .error er) →
      (setupJITFunding env rs).1 = .fail (apiErrorMsg er) ∧
      (setupJITFunding env rs).2.1 =
        { rs with fundingSource := some fsE, cardProduct := some cpE, user := some uE })
    ∧ (∀ env rs fsE cpE uE cdE er, env.connectionOk = true → (∀ r, env.fundingResp r = .ok fsE) →
      (∀ r, env.cardProductResp r = .ok cpE) → (∀ r, env.userResp r = .ok uE) →
      (∀ r, env.cardResp r = .ok cdE) → (∀ r, env.velocityResp r = .error er) →
      (setupJITFunding env rs).1 = .fail (apiErrorMsg er) ∧
      (setupJITFunding env rs).2.1 =
        { rs with fundingSource := some fsE, cardProduct := some cpE, user := some uE,
                  card := some cdE }) := by
  refine ⟨fun env rs fsE er hc hf hcp => ?_, fun env rs fsE cpE er hc hf hcp hu => ?_,
    fun env rs fsE cpE uE er hc hf hcp hu hcd => ?_,
    fun env rs fsE cpE uE cdE er hc hf hcp hu hcd hv => ?_⟩
  · rw [setup_eq_cpFail env rs fsE er hc hf hcp]; exact ⟨rfl, rfl⟩
  · rw [setup_eq_userFail env rs fsE cpE er hc hf hcp hu]; exact ⟨rfl, rfl⟩
  · rw [setup_eq_cardFail env rs fsE cpE uE er hc hf hcp hu hcd]; exact ⟨rfl, rfl⟩
  · rw [setup_eq_velFail env rs fsE cpE uE cdE er hc hf hcp hu hcd hv]; exact ⟨rfl, rfl⟩

/-- witness for the amended C2 at four concrete single-step-failing runs. -/
theorem C2_amended_failed_setup_keeps_committed_entities_witness :
    ((setupJITFunding setupEnvCpFail emptyResources).1 =
        .fail (apiErrorMsg ⟨400, "card product rejected"⟩) ∧
      (setupJITFunding setupEnvCpFail emptyResources).2.1 =
        { emptyResources with fundingSource := some fsA })
    ∧ ((setupJITFunding setupEnvUserFail emptyResources).1 =
        .fail (apiErrorMsg ⟨400, "user rejected"⟩) ∧
      (setupJITFunding setupEnvUserFail emptyResources).2.1 =
        { emptyResources with fundingSource := some fsA, cardProduct := some cpA })
    ∧ ((setupJITFunding setupEnvCardFail emptyResources).1 =
        .fail (apiErrorMsg ⟨400, "card rejected"⟩) ∧
      (setupJITFunding setupEnvCardFail emptyResources).2.1 =
        { emptyResources with
            fundingSource := some fsA, cardProduct := some cpA, user := some uA })
    ∧ ((setupJITFunding setupEnvVelFail emptyResources).1 =
        .fail (apiErrorMsg ⟨400, "velocity rejected"⟩) ∧
      (setupJITFunding setupEnvVelFail emptyResources).2.1 =
        { emptyResources with
            fundingSource := some fsA, cardProduct := some cpA, user := some uA,
            card := some cdA }) :=
  ⟨C2_amended_failed_setup_keeps_committed_entities.1 setupEnvCpFail emptyResources fsA
      ⟨400, "card product rejected"⟩ rfl (fun _ => rfl) (fun _ => rfl),
   C2_amended_failed_setup_keeps_committed_entities.2.1 setupEnvUserFail emptyResources fsA cpA
      ⟨400, "user rejected"⟩ rfl (fun _ => rfl) (fun _ => rfl) (fun _ => rfl),
   C2_amended_failed_setup_keeps_committed_entities.2.2.1 setupEnvCardFail emptyResources fsA
      cpA uA ⟨400, "card rejected"⟩ rfl (fun _ => rfl) (fun _ => rfl) (fun _ => rfl)
      (fun _ => rfl),
   C2_amended_failed_setup_keeps_committed_entities.2.2.2 setupEnvVelFail emptyResources fsA
      cpA uA cdA ⟨400, "velocity rejected"⟩ rfl (fun _ => rfl) (fun _ => rfl) (fun _ => rfl)
      (fun _ => rfl) (fun _ => rfl)⟩

/-- C4: a funding-source creation failure never aborts the run — with every
later step succeeding, setup returns Success carrying the fallback funding
source whose token is the string "sandbox_program_funding"; and it is the
only creation step with that property: a failure of the card-product, user,
card or velocity-control step makes the run return Failure. -/
theorem C4_funding_fallback_only_nonfatal_step :
    (∀ env rs er cpE uE cdE vE, env.connectionOk = true →
      (∀ r, env.fundingResp r = .error er) → (∀ r, env.cardProductResp r = .ok cpE) →
      (∀ r, env.userResp r = .ok uE) → (∀ r, env.cardResp r = .ok cdE) →
      (∀ r, env.velocityResp r = .ok vE) →
      (setupJITFunding env rs).1 = .ok defaultFundingSource cpE uE cdE vE ∧
      defaultFundingSource.token = "sandbox_program_funding")
    ∧ (∀ env rs fsE er, env.connectionOk = true → (∀ r, env.fundingResp r = .ok fsE) →
      (∀ r, env.cardProductResp r = .error er) →
      (setupJITFunding env rs).1 = .fail (apiErrorMsg er))
    ∧ (∀ env rs fsE cpE er, env.connectionOk = true → (∀ r, env.fundingResp r = .ok fsE) →
      (∀ r, env.cardProductResp r = .ok cpE) → (∀ r, env.userResp r = .error er) →
      (setupJITFunding env rs).1 = .fail (apiErrorMsg er))
    ∧ (∀ env rs fsE cpE uE er, env.connectionOk = true → (∀ r, env.fundingResp r = .ok fsE) →
      (∀ r, env.cardProductResp r = .ok cpE) → (∀ r, env.userResp r = .ok uE) →
      (∀ r, env.cardResp r = .error er) →
      (setupJITFunding env rs).1 = .fail (apiErrorMsg er))
    ∧ (∀ env rs fsE cpE uE cdE er, env.connectionOk = true →
      (∀ r, env.fundingResp r = .ok fsE) → (∀ r, env.cardProductResp r = .ok cpE) →
      (∀ r, env.userResp r = .ok uE) → (∀ r, env.cardResp r = .ok cdE) →
      (∀ r, env.velocityResp r = .error er) →
      (setupJITFunding env rs).1 = .fail (apiErrorMsg er)) := by
  refine ⟨fun env rs er cpE uE cdE vE hc hf hcp hu hcd hv => ?_,
    fun env rs fsE er hc hf hcp => ?_, fun env rs fsE cpE er hc hf hcp hu => ?_,
    fun env rs fsE cpE uE er hc hf hcp hu hcd => ?_,
    fun env rs fsE cpE uE cdE er hc hf hcp hu hcd hv => ?_⟩
  · rw [setup_eq_fallbackOk env rs er cpE uE cdE vE hc hf hcp hu hcd hv]; exact ⟨rfl, rfl⟩
  · rw [setup_eq_cpFail env rs fsE er hc hf hcp]
  · rw [setup_eq_userFail env rs fsE cpE er hc hf hcp hu]
  · rw [setup_eq_cardFail env rs fsE cpE uE er hc hf hcp hu hcd]
  · rw [setup_eq_velFail env rs fsE cpE uE cdE er hc hf hcp hu hcd hv]

/-- witness for C4 at five concrete runs, one per failing step. -/
theorem C4_funding_fallback_only_nonfatal_step_witness :
    ((setupJITFunding setupEnvFundFail emptyResources).1 =
        .ok defaultFundingSource cpA uA cdA vA ∧
      defaultFundingSource.token = "sandbox_program_funding")
    ∧ (setupJITFunding setupEnvCpFail emptyResources).1 =
        .fail (apiErrorMsg ⟨400, "card product rejected"⟩)
    ∧ (setupJITFunding setupEnvUserFail emptyResources).1 =
        .fail (apiErrorMsg ⟨400, "user rejected"⟩)
    ∧ (setupJITFunding setupEnvCardFail emptyResources).1 =
        .fail (apiErrorMsg ⟨400, "card rejected"⟩)
    ∧ (setupJITFunding setupEnvVelFail emptyResources).1 =
        .fail (apiErrorMsg ⟨400, "velocity rejected"⟩) :=
  ⟨C4_funding_fallback_only_nonfatal_step.1 setupEnvFundFail emptyResources
      ⟨404, "funding rejected"⟩ cpA uA cdA vA rfl (fun _ => rfl) (fun _ => rfl)
      (fun _ => rfl) (fun _ => rfl) (fun _ => rfl),
   C4_funding_fallback_only_nonfatal_step.2.1 setupEnvCpFail emptyResources fsA
      ⟨400, "card product rejected"⟩ rfl (fun _ => rfl) (fun _ => rfl),
   C4_funding_fallback_only_nonfatal_step.2.2.1 setupEnvUserFail emptyResources fsA cpA
      ⟨400, "user rejected"⟩ rfl (fun _ => rfl) (fun _ => rfl) (fun _ => rfl),
   C4_funding_fallback_only_nonfatal_step.2.2.2.1 setupEnvCardFail emptyResources fsA cpA uA
      ⟨400, "card rejected"⟩ rfl (fun _ => rfl) (fun _ => rfl) (fun _ => rfl) (fun _ => rfl),
   C4_funding_fallback_only_nonfatal_step.2.2.2.2 setupEnvVelFail emptyResources fsA cpA uA
      cdA ⟨400, "velocity rejected"⟩ rfl (fun _ => rfl) (fun _ => rfl) (fun _ => rfl)
      (fun _ => rfl) (fun _ => rfl)⟩

/-- C6: when the pre-flight probe fails the run returns Failure at once with
the connection-failure reason (the code's rendering of "cannot reach upstream
platform"), the registry is untouched, and the outbound traffic is exactly
one probe — no creation call, no second probe. -/
theorem C6_probe_failure_is_fatal_and_clean (env : SetupEnv) (rs : Resources)
    (h : env.connectionOk = false) :
    setupJITFunding env rs = (.fail connectionFailureMsg, rs, [.connectionTest]) :=
  setup_eq_connFail env rs h

/-- witness for C6 at a concrete probe-failing environment. -/
theorem C6_probe_failure_is_fatal_and_clean_witness :
    setupJITFunding setupEnvConnFail emptyResources =
      (.fail connectionFailureMsg, emptyResources, [.connectionTest]) :=
  C6_probe_failure_is_fatal_and_clean setupEnvConnFail emptyResources rfl


/-- run equation of the PAN-payment success path: matching card, successful
authorization with a truthy transaction token, autoClear on, successful
clearing. -/
theorem nfc_success_path
    (env : TxnEnv) (rs : Resources) (body : NfcBody) (pan : String) (a : ℚ)
    (card : CardEntity) (tr : AuthResponse) (txn : Txn) (cr : List (String × String))
    (hp : body.pan = some pan) (hpne : pan ≠ "") (hfmt : validPanFormat pan = true)
    (ha : body.amount = some a) (hapos : 0 < a)
    (hcard : rs.card = some card) (hmatch : card.pan = pan)
    (hauto : body.autoClear.getD true = true)
    (hauth : env.authResult (authReqOf card.token ((jsRound (a * 100) : ℤ) : ℚ) none) = .ok tr)
    (htr : tr.transaction = some txn) (htok : txn.token ≠ "")
    (hclear : env.clearResult (clearReqOf txn.token ((jsRound (a * 100) : ℤ) : ℚ)) = .ok cr) :
    nfcPayHandler env rs "POST" body =
      (.payOk { transaction := some { txn with state := "CLEARED" },
                gpa_order := tr.gpa_order, cleared := some true, warning := none,
                cardLast4 := jsSliceLast pan 4 },
       [.authorization (authReqOf card.token ((jsRound (a * 100) : ℤ) : ℚ) none),
        .clearing (clearReqOf txn.token ((jsRound (a * 100) : ℤ) : ℚ))]) := by
  have hne : ¬ a ≤ 0 := not_le.mpr hapos
  simp [nfcPayHandler, hp, hpne, hfmt, ha, hne, hcard, hmatch, hauto, hauth, htr, htok, hclear]

/-- run equation of the PAN-payment partial-success path: as above but the
clearing call fails. -/
theorem nfc_clearfail_path
    (env : TxnEnv) (rs : Resources) (body : NfcBody) (pan : String) (a : ℚ)
    (card : CardEntity) (tr : AuthResponse) (txn : Txn) (ce : ApiError)
    (hp : body.pan = some pan) (hpne : pan ≠ "") (hfmt : validPanFormat pan = true)
    (ha : body.amount = some a) (hapos : 0 < a)
    (hcard : rs.card = some card) (hmatch : card.pan = pan)
    (hauto : body.autoClear.getD true = true)
    (hauth : env.authResult (authReqOf card.token ((jsRound (a * 100) : ℤ) : ℚ) none) = .ok tr)
    (htr : tr.transaction = some txn) (htok : txn.token ≠ "")
    (hclear : env.clearResult (clearReqOf txn.token ((jsRound (a * 100) : ℤ) : ℚ)) = .error ce) :
    nfcPayHandler env rs "POST" body =
      (.payOk { transaction := some txn, gpa_order := tr.gpa_order, cleared := none,
                warning := some autoClearWarning, cardLast4 := jsSliceLast pan 4 },
       [.authorization (authReqOf card.token ((jsRound (a * 100) : ℤ) : ℚ) none),
        .clearing (clearReqOf txn.token ((jsRound (a * 100) : ℤ) : ℚ))]) := by
  have hne : ¬ a ≤ 0 := not_le.mpr hapos
  simp [nfcPayHandler, hp, hpne, hfmt, ha, hne, hcard, hmatch, hauto, hauth, htr, htok, hclear]

/-- C3 counterexample: calling the dispatcher's simulate action with amount
10.00 issues an authorization request whose amount field is the string "10",
not "1000" — simulateTransaction stringifies the amount it is handed without
any cents conversion. -/
theorem C3_counterexample_simulate_does_not_convert :
    setupApiSimulate txnEnvA (some "card_11112222_gh4") (some 10) none =
      (.ok authRespA, [.authorization (authReqOf "card_11112222_gh4" 10 none)])
    ∧ (authReqOf "card_11112222_gh4" 10 none).amount = "10"
    ∧ (authReqOf "card_11112222_gh4" 10 none).amount ≠ "1000" :=
  ⟨by decide, by decide, by decide⟩

/-- C3 amended: the ×100 cents conversion lives in the payment handlers, not
in simulateTransaction.  The PAN-payment path at amount 10.00 issues an
authorization whose amount string is "1000" and then a clearing whose amount
number is 10 (clearTransaction divides its cent amount by 100 exactly), while
simulateTransaction itself — hence the dispatcher's simulate action — turns
amount 10.00 into the string "10". -/
theorem C3_amended_conversion_lives_in_handlers :
    (nfcPayHandler txnEnvA rsWithCardA "POST"
        { pan := some "5112345123451234", amount := some 10, autoClear := some true }).2 =
      [.authorization (authReqOf cdA.token 1000 none),
       .clearing (clearReqOf txnA.token 1000)]
    ∧ (authReqOf cdA.token 1000 none).amount = "1000"
    ∧ (clearReqOf txnA.token 1000).amount = 10
    ∧ (authReqOf "card_11112222_gh4" 10 none).amount = "10"
    ∧ (setupApiSimulate txnEnvA (some "card_11112222_gh4") (some 10) none).2 =
      [.authorization (authReqOf "card_11112222_gh4" 10 none)] := by
  have hamt : ((jsRound ((10 : ℚ) * 100) : ℤ) : ℚ) = 1000 := by norm_num [jsRound]
  have hrun := nfc_success_path txnEnvA rsWithCardA
    { pan := some "5112345123451234", amount := some 10, autoClear := some true }
    "5112345123451234" 10 cdA authRespA txnA [("state", "CLEARED")]
    rfl (by decide) (by decide) rfl (by decide) rfl rfl rfl rfl rfl (by decide) rfl
  refine ⟨?_, by decide, by norm_num [clearReqOf], by decide, by decide⟩
  rw [hrun]
  rw [hamt]

/-- C5: on the PAN-payment path with autoClear, when the authorization
succeeds with a transaction token but the clearing call fails, the handler
responds 200 success carrying the original (still uncleared) transaction and
the non-empty auto-clear warning — never a failure response. -/
theorem C5_autoclear_failure_partial_success
    (env : TxnEnv) (rs : Resources) (body : NfcBody) (pan : String) (a : ℚ)
    (card : CardEntity) (tr : AuthResponse) (txn : Txn) (ce : ApiError)
    (hp : body.pan = some pan) (hpne : pan ≠ "") (hfmt : validPanFormat pan = true)
    (ha : body.amount = some a) (hapos : 0 < a)
    (hcard : rs.card = some card) (hmatch : card.pan = pan)
    (hauto : body.autoClear.getD true = true)
    (hauth : env.authResult (authReqOf card.token ((jsRound (a * 100) : ℤ) : ℚ) none) = .ok tr)
    (htr : tr.transaction = some txn) (htok : txn.token ≠ "")
    (hclear : env.clearResult (clearReqOf txn.token ((jsRound (a * 100) : ℤ) : ℚ)) = .error ce) :
    nfcPayHandler env rs "POST" body =
      (.payOk { transaction := some txn, gpa_order := tr.gpa_order, cleared := none,
                warning := some autoClearWarning, cardLast4 := jsSliceLast pan 4 },
       [.authorization (authReqOf card.token ((jsRound (a * 100) : ℤ) : ℚ) none),
        .clearing (clearReqOf txn.token ((jsRound (a * 100) : ℤ) : ℚ))])
    ∧ autoClearWarning ≠ ""
    ∧ nfcStatus (.payOk { transaction := some txn, gpa_order := tr.gpa_order, cleared := none,
                          warning := some autoClearWarning,
                          cardLast4 := jsSliceLast pan 4 }) = 200 :=
  ⟨nfc_clearfail_path env rs body pan a card tr txn ce hp hpne hfmt ha hapos hcard hmatch
      hauto hauth htr htok hclear,
   by decide, rfl⟩

/-- witness for C5 at a concrete clearing-failure run. -/
theorem C5_autoclear_failure_partial_success_witness :
    (nfcPayHandler txnEnvClearFail rsWithCardA "POST"
        { pan := some "5112345123451234", amount := some 10, autoClear := none } =
      (.payOk { transaction := some txnA, gpa_order := authRespA.gpa_order, cleared := none,
                warning := some autoClearWarning,
                cardLast4 := jsSliceLast "5112345123451234" 4 },
       [.authorization (authReqOf cdA.token ((jsRound ((10 : ℚ) * 100) : ℤ) : ℚ) none),
        .clearing (clearReqOf txnA.token ((jsRound ((10 : ℚ) * 100) : ℤ) : ℚ))]))
    ∧ autoClearWarning ≠ ""
    ∧ nfcStatus (.payOk { transaction := some txnA, gpa_order := authRespA.gpa_order,
                          cleared := none, warning := some autoClearWarning,
                          cardLast4 := jsSliceLast "5112345123451234" 4 }) = 200 :=
  C5_autoclear_failure_partial_success txnEnvClearFail rsWithCardA
    { pan := some "5112345123451234", amount := some 10, autoClear := none }
    "5112345123451234" 10 cdA authRespA txnA ⟨500, "clearing rejected"⟩
    rfl (by decide) (by decide) rfl (by decide) rfl rfl rfl rfl rfl (by decide) rfl


/-- C7: with a syntactically valid PAN and a positive amount, the PAN-payment
handler proceeds to authorization with the stored card's token exactly when
the registry card's pan equals the supplied PAN; otherwise (no card, or any
difference in the pan) it answers 404 CardNotFound telling the caller to run
setup first, and issues no outbound call at all. -/
theorem C7_pan_lookup_exact_match :
    (∀ env rs body pan a card, body.pan = some pan → pan ≠ "" →
      validPanFormat pan = true → body.amount = some a → 0 < a →
      rs.card = some card → card.pan = pan →
      (nfcPayHandler env rs "POST" body).2.head? =
        some (.authorization (authReqOf card.token ((jsRound (a * 100) : ℤ) : ℚ) none)))
    ∧ (∀ env rs body pan a, body.pan = some pan → pan ≠ "" →
      validPanFormat pan = true → body.amount = some a → 0 < a →
      (∀ card, rs.card = some card → card.pan ≠ pan) →
      nfcPayHandler env rs "POST" body = (.cardNotFound cardNotFoundMsg cardNotFoundHint, [])
        ∧ nfcStatus (nfcPayHandler env rs "POST" body).1 = 404) := by
  constructor
  · intro env rs body pan a card hp hpne hfmt ha hapos hcard hmatch
    have hne : ¬ a ≤ 0 := not_le.mpr hapos
    rcases hres : env.authResult (authReqOf card.token ((jsRound (a * 100) : ℤ) : ℚ) none)
      with e | tr
    · simp [nfcPayHandler, hp, hpne, hfmt, ha, hne, hcard, hmatch, hres]
    · rcases htr : tr.transaction with _ | txn
      · simp [nfcPayHandler, hp, hpne, hfmt, ha, hne, hcard, hmatch, hres, htr]
      · by_cases hcond : body.autoClear.getD true = true ∧ txn.token ≠ ""
        · rcases hcl : env.clearResult (clearReqOf txn.token ((jsRound (a * 100) : ℤ) : ℚ))
            with ce | cr
          · simp [nfcPayHandler, hp, hpne, hfmt, ha, hne, hcard, hmatch, hres, htr, hcond, hcl]
          · simp [nfcPayHandler, hp, hpne, hfmt, ha, hne, hcard, hmatch, hres, htr, hcond, hcl]
        · simp [nfcPayHandler, hp, hpne, hfmt, ha, hne, hcard, hmatch, hres, htr, hcond]
  · intro env rs body pan a hp hpne hfmt ha hapos hnone
    have hne : ¬ a ≤ 0 := not_le.mpr hapos
    rcases hcard : rs.card with _ | card
    · refine ⟨?_, ?_⟩ <;>
        simp [nfcPayHandler, hp, hpne, hfmt, ha, hne, hcard, nfcStatus]
    · have hm : card.pan ≠ pan := hnone card hcard
      refine ⟨?_, ?_⟩ <;>
        simp [nfcPayHandler, hp, hpne, hfmt, ha, hne, hcard, hm, nfcStatus]

/-- witness for C7: the demo PAN matches the stored card and authorization is
attempted with its token; a registry missing the card yields 404 and silence. -/
theorem C7_pan_lookup_exact_match_witness :
    ((nfcPayHandler txnEnvA rsWithCardA "POST"
        { pan := some "5112345123451234", amount := some 10, autoClear := some true }).2.head? =
      some (.authorization (authReqOf cdA.token ((jsRound ((10 : ℚ) * 100) : ℤ) : ℚ) none)))
    ∧ (nfcPayHandler txnEnvA emptyResources "POST"
        { pan := some "5112345123451299", amount := some 10, autoClear := some true } =
        (.cardNotFound cardNotFoundMsg cardNotFoundHint, [])
      ∧ nfcStatus (nfcPayHandler txnEnvA emptyResources "POST"
          { pan := some "5112345123451299", amount := some 10, autoClear := some true }).1 = 404) :=
  ⟨C7_pan_lookup_exact_match.1 txnEnvA rsWithCardA
      { pan := some "5112345123451234", amount := some 10, autoClear := some true }
      "5112345123451234" 10 cdA rfl (by decide) (by decide) rfl (by decide) rfl rfl,
   C7_pan_lookup_exact_match.2 txnEnvA emptyResources
      { pan := some "5112345123451299", amount := some 10, autoClear := some true }
      "5112345123451299" 10 rfl (by decide) (by decide) rfl (by decide)
      (fun card hc => by simp [emptyResources] at hc)⟩

/-- C8 counterexample: a request whose pin field is present with length 0
(hence not 6) is answered 400 "Missing required fields", not 400 "Invalid PIN
length" — the missing-fields check fires first on a falsy pin. -/
theorem C8_counterexample_empty_pin_hits_missing_fields :
    processPinPaymentHandler txnEnvA "POST"
      { pan := some "5112345123451234", pin := some "", amount := some 10 } =
      (.badRequest "Missing required fields", [])
    ∧ ("" : String).length ≠ 6
    ∧ (.badRequest "Missing required fields" : PinResult) ≠ .badRequest "Invalid PIN length" :=
  ⟨by decide, by decide, by decide⟩

/-- C8 amended: when pan, pin and amount are all present and truthy and the
pin's length is not 6, the handler answers exactly 400 "Invalid PIN length"
with zero outbound calls; and for every request with a present pin of length
other than 6 the handler answers some 400 validation error with zero outbound
calls — the upstream is never contacted. -/
theorem C8_amended_pin_length_validation :
    (∀ env pan pin amount, pan ≠ "" → pin ≠ "" → amount ≠ (0 : ℚ) → pin.length ≠ 6 →
      processPinPaymentHandler env "POST"
          { pan := some pan, pin := some pin, amount := some amount } =
        (.badRequest "Invalid PIN length", [])
      ∧ pinStatus (.badRequest "Invalid PIN length") = 400)
    ∧ (∀ env body p, body.pin = some p → p.length ≠ 6 →
      ∃ msg, processPinPaymentHandler env "POST" body = (.badRequest msg, [])) := by
  constructor
  · intro env pan pin amount hpan hpin hamt hlen
    refine ⟨?_, rfl⟩
    simp [processPinPaymentHandler, truthyStr, truthyNum, hpan, hpin, hamt, hlen]
  · intro env body p hp hlen
    by_cases hval : truthyStr body.pan = true ∧ truthyStr body.pin = true
        ∧ truthyNum body.amount = true
    · refine ⟨"Invalid PIN length", ?_⟩
      have hgd : body.pin.getD "" = p := by rw [hp]; rfl
      simp [processPinPaymentHandler, hval, hgd, hlen]
    · exact ⟨"Missing required fields", by simp [processPinPaymentHandler, hval]⟩

/-- witness for the amended C8: a five-character pin with valid other fields
gets "Invalid PIN length" and no outbound call; the generic conjunct applied
to the same request yields a 400 with no outbound call. -/
theorem C8_amended_pin_length_validation_witness :
    (processPinPaymentHandler txnEnvA "POST"
        { pan := some "5112345123451234", pin := some "12345", amount := some 10 } =
      (.badRequest "Invalid PIN length", [])
      ∧ pinStatus (.badRequest "Invalid PIN length") = 400)
    ∧ ∃ msg, processPinPaymentHandler txnEnvA "POST"
        { pan := some "", pin := some "12345", amount := some 10 } = (.badRequest msg, []) :=
  ⟨C8_amended_pin_length_validation.1 txnEnvA "5112345123451234" "12345" 10
      (by decide) (by decide) (by decide) (by decide),
   C8_amended_pin_length_validation.2 txnEnvA
      { pan := some "", pin := some "12345", amount := some 10 } "12345" rfl (by decide)⟩


/-- run equation of the card-token payment success path (part_001): valid
fields, demo PIN, successful authorization with a truthy transaction token,
successful clearing. -/
theorem p1_success_path
    (env : TxnEnv) (body : TokenPinBody) (ct : String) (a : ℚ)
    (tr : AuthResponse) (txn : Txn) (cr : List (String × String))
    (hct : body.cardToken = some ct) (hctne : ct ≠ "")
    (hpin : body.pin = some DEMO_PIN)
    (ha : body.amount = some a) (hane : a ≠ 0)
    (hauth : env.authResult (authReqOf ct ((jsRound (a * 100) : ℤ) : ℚ) none) = .ok tr)
    (htr : tr.transaction = some txn) (htok : txn.token ≠ "")
    (hclear : env.clearResult (clearReqOf txn.token ((jsRound (a * 100) : ℤ) : ℚ)) = .ok cr) :
    processPaymentHandler env "POST" body =
      (.payOk { transaction := some { txn with state := "CLEARED" },
                gpa_order := tr.gpa_order, cleared := some true,
                cardLast4 := some (jsSliceLast ct 4), amount := some a, warning := none },
       [.authorization (authReqOf ct ((jsRound (a * 100) : ℤ) : ℚ) none),
        .clearing (clearReqOf txn.token ((jsRound (a * 100) : ℤ) : ℚ))]) := by
  simp [processPaymentHandler, truthyStr, truthyNum, hct, hctne, hpin, ha, hane,
        hauth, htr, htok, hclear, DEMO_PIN,
        show ("123456" : String).length = 6 from rfl]

/-- run equation of the QR payment success path (part_002): valid fields,
autoClear on, successful authorization with a truthy transaction token,
successful clearing. -/
theorem qr_success_path
    (env : TxnEnv) (body : QrBody) (ct : String) (a : ℚ)
    (tr : AuthResponse) (txn : Txn) (cr : List (String × String))
    (hct : body.cardToken = some ct) (hctne : ct ≠ "")
    (ha : body.amount = some a) (hapos : 0 < a)
    (hauto : body.autoClear.getD true = true)
    (hauth : env.authResult (authReqOf ct ((jsRound (a * 100) : ℤ) : ℚ) none) = .ok tr)
    (htr : tr.transaction = some txn) (htok : txn.token ≠ "")
    (hclear : env.clearResult (clearReqOf txn.token ((jsRound (a * 100) : ℤ) : ℚ)) = .ok cr) :
    qrPayHandler env "POST" body =
      (.payOk { transaction := some { txn with state := "CLEARED" },
                gpa_order := tr.gpa_order, cleared := some true, warning := none },
       [.authorization (authReqOf ct ((jsRound (a * 100) : ℤ) : ℚ) none),
        .clearing (clearReqOf txn.token ((jsRound (a * 100) : ℤ) : ℚ))]) := by
  have hne : ¬ a ≤ 0 := not_le.mpr hapos
  simp [qrPayHandler, hct, hctne, ha, hne, hauto, hauth, htr, htok, hclear]

/-- C10: on the auto-clear success path of the PAN, card-token and QR payment
handlers, the caller receives the original authorization transaction with its
state field overwritten locally to "CLEARED" and a cleared flag set to true;
the clearing response `cr` is universally quantified and absent from the
response, so none of its fields can reach the caller. -/
theorem C10_autoclear_returns_overwritten_auth_transaction :
    (∀ env rs body pan a card tr txn cr, body.pan = some pan → pan ≠ "" →
      validPanFormat pan = true → body.amount = some a → 0 < a →
      rs.card = some card → card.pan = pan → body.autoClear.getD true = true →
      env.authResult (authReqOf card.token ((jsRound (a * 100) : ℤ) : ℚ) none) = .ok tr →
      tr.transaction = some txn → txn.token ≠ "" →
      env.clearResult (clearReqOf txn.token ((jsRound (a * 100) : ℤ) : ℚ)) = .ok cr →
      nfcPayHandler env rs "POST" body =
        (.payOk { transaction := some { txn with state := "CLEARED" },
                  gpa_order := tr.gpa_order, cleared := some true, warning := none,
                  cardLast4 := jsSliceLast pan 4 },
         [.authorization (authReqOf card.token ((jsRound (a * 100) : ℤ) : ℚ) none),
          .clearing (clearReqOf txn.token ((jsRound (a * 100) : ℤ) : ℚ))]))
    ∧ (∀ env body ct a tr txn cr, body.cardToken = some ct → ct ≠ "" →
      body.pin = some DEMO_PIN → body.amount = some a → a ≠ 0 →
      env.authResult (authReqOf ct ((jsRound (a * 100) : ℤ) : ℚ) none) = .ok tr →
      tr.transaction = some txn → txn.token ≠ "" →
      env.clearResult (clearReqOf txn.token ((jsRound (a * 100) : ℤ) : ℚ)) = .ok cr →
      processPaymentHandler env "POST" body =
        (.payOk { transaction := some { txn with state := "CLEARED" },
                  gpa_order := tr.gpa_order, cleared := some true,
                  cardLast4 := some (jsSliceLast ct 4), amount := some a, warning := none },
         [.authorization (authReqOf ct ((jsRound (a * 100) : ℤ) : ℚ) none),
          .clearing (clearReqOf txn.token ((jsRound (a * 100) : ℤ) : ℚ))]))
    ∧ (∀ env body ct a tr txn cr, body.cardToken = some ct → ct ≠ "" →
      body.amount = some a → 0 < a → body.autoClear.getD true = true →
      env.authResult (authReqOf ct ((jsRound (a * 100) : ℤ) : ℚ) none) = .ok tr →
      tr.transaction = some txn → txn.token ≠ "" →
      env.clearResult (clearReqOf txn.token ((jsRound (a * 100) : ℤ) : ℚ)) = .ok cr →
      qrPayHandler env "POST" body =
        (.payOk { transaction := some { txn with state := "CLEARED" },
                  gpa_order := tr.gpa_order, cleared := some true, warning := none },
         [.authorization (authReqOf ct ((jsRound (a * 100) : ℤ) : ℚ) none),
          .clearing (clearReqOf txn.token ((jsRound (a * 100) : ℤ) : ℚ))])) :=
  ⟨fun env rs body pan a card tr txn cr hp hpne hfmt ha hapos hcard hmatch hauto hauth
      htr htok hclear =>
    nfc_success_path env rs body pan a card tr txn cr hp hpne hfmt ha hapos hcard hmatch
      hauto hauth htr htok hclear,
   fun env body ct a tr txn cr hct hctne hpin ha hane hauth htr htok hclear =>
    p1_success_path env body ct a tr txn cr hct hctne hpin ha hane hauth htr htok hclear,
   fun env body ct a tr txn cr hct hctne ha hapos hauto hauth htr htok hclear =>
    qr_success_path env body ct a tr txn cr hct hctne ha hapos hauto hauth htr htok hclear⟩

/-- witness for C10 at concrete successful auto-clear runs of all three
handlers. -/
theorem C10_autoclear_returns_overwritten_auth_transaction_witness :
    (nfcPayHandler txnEnvA rsWithCardA "POST"
        { pan := some "5112345123451234", amount := some 10, autoClear := some true } =
      (.payOk { transaction := some { txnA with state := "CLEARED" },
                gpa_order := authRespA.gpa_order, cleared := some true, warning := none,
                cardLast4 := jsSliceLast "5112345123451234" 4 },
       [.authorization (authReqOf cdA.token ((jsRound ((10 : ℚ) * 100) : ℤ) : ℚ) none),
        .clearing (clearReqOf txnA.token ((jsRound ((10 : ℚ) * 100) : ℤ) : ℚ))]))
    ∧ (processPaymentHandler txnEnvA "POST"
        { cardToken := some "card_11112222_gh4", pin := some "123456", amount := some 10 } =
      (.payOk { transaction := some { txnA with state := "CLEARED" },
                gpa_order := authRespA.gpa_order, cleared := some true,
                cardLast4 := some (jsSliceLast "card_11112222_gh4" 4),
                amount := some 10, warning := none },
       [.authorization (authReqOf "card_11112222_gh4" ((jsRound ((10 : ℚ) * 100) : ℤ) : ℚ) none),
        .clearing (clearReqOf txnA.token ((jsRound ((10 : ℚ) * 100) : ℤ) : ℚ))]))
    ∧ (qrPayHandler txnEnvA "POST"
        { cardToken := some "card_11112222_gh4", amount := some 10, autoClear := none } =
      (.payOk { transaction := some { txnA with state := "CLEARED" },
                gpa_order := authRespA.gpa_order, cleared := some true, warning := none },
       [.authorization (authReqOf "card_11112222_gh4" ((jsRound ((10 : ℚ) * 100) : ℤ) : ℚ) none),
        .clearing (clearReqOf txnA.token ((jsRound ((10 : ℚ) * 100) : ℤ) : ℚ))])) :=
  ⟨C10_autoclear_returns_overwritten_auth_transaction.1 txnEnvA rsWithCardA
      { pan := some "5112345123451234", amount := some 10, autoClear := some true }
      "5112345123451234" 10 cdA authRespA txnA [("state", "CLEARED")]
      rfl (by decide) (by decide) rfl (by decide) rfl rfl rfl rfl rfl (by decide) rfl,
   C10_autoclear_returns_overwritten_auth_transaction.2.1 txnEnvA
      { cardToken := some "card_11112222_gh4", pin := some "123456", amount := some 10 }
      "card_11112222_gh4" 10 authRespA txnA [("state", "CLEARED")]
      rfl (by decide) rfl rfl (by decide) rfl rfl (by decide) rfl,
   C10_autoclear_returns_overwritten_auth_transaction.2.2 txnEnvA
      { cardToken := some "card_11112222_gh4", amount := some 10, autoClear := none }
      "card_11112222_gh4" 10 authRespA txnA [("state", "CLEARED")]
      rfl (by decide) rfl (by decide) rfl rfl rfl (by decide) rfl⟩


/-- the digit accumulator never shortens its accumulator. -/
theorem natDigitsAux_length_le (fuel : ℕ) : ∀ (n : ℕ) (acc : List Char),
    acc.length ≤ (natDigitsAux fuel n acc).length := by
  induction fuel with
  | zero => intro n acc; simp [natDigitsAux]
  | succ f ih =>
    intro n acc
    by_cases hn : n = 0
    · simp [natDigitsAux, hn]
    · simp only [natDigitsAux, if_neg hn]
      have h1 := ih (n / 10) (digitChar (n % 10) :: acc)
      simp only [List.length_cons] at h1
      omega

/-- a number of at least `k + 1` decimal digits yields at least `k + 1`
digit characters. -/
theorem natDigitsAux_length_lower : ∀ (k fuel n : ℕ) (acc : List Char),
    10 ^ k ≤ n → k < fuel → acc.length + (k + 1) ≤ (natDigitsAux fuel n acc).length := by
  intro k
  induction k with
  | zero =>
    intro fuel n acc h hf
    obtain ⟨f, rfl⟩ : ∃ f, fuel = f + 1 := ⟨fuel - 1, by omega⟩
    have h1 : 1 ≤ n := by simpa using h
    have hn : n ≠ 0 := by omega
    simp only [natDigitsAux, if_neg hn]
    have h2 := natDigitsAux_length_le f (n / 10) (digitChar (n % 10) :: acc)
    simp only [List.length_cons] at h2
    omega
  | succ k ih =>
    intro fuel n acc h hf
    obtain ⟨f, rfl⟩ : ∃ f, fuel = f + 1 := ⟨fuel - 1, by omega⟩
    have hge1 : 1 ≤ 10 ^ (k + 1) := Nat.one_le_pow _ _ (by norm_num)
    have hn : n ≠ 0 := by omega
    have hdiv : 10 ^ k ≤ n / 10 := by
      rw [Nat.le_div_iff_mul_le (by norm_num : 0 < 10)]
      calc 10 ^ k * 10 = 10 ^ (k + 1) := (pow_succ 10 k).symm
        _ ≤ n := h
    simp only [natDigitsAux, if_neg hn]
    have h1 := ih f (n / 10) (digitChar (n % 10) :: acc) hdiv (by omega)
    simp only [List.length_cons] at h1
    omega

/-- decimal digit count of `n ≥ 10 ^ k` is at least `k + 1`. -/
theorem natDigits_length_ge (k n : ℕ) (h : 10 ^ k ≤ n) : k + 1 ≤ (natDigits n).length := by
  have h2 : k < 10 ^ k := Nat.lt_pow_self (by norm_num) k
  have hk : k < n + 1 := by omega
  simpa using natDigitsAux_length_lower k (n + 1) n [] h hk

/-- the character of a decimal digit is a digit character. -/
theorem digitChar_isDigit (d : ℕ) (h : d < 10) : (digitChar d).isDigit = true := by
  interval_cases d <;> decide

/-- every character the digit accumulator emits is a digit (or came from the
initial accumulator). -/
theorem natDigitsAux_all_digits (fuel : ℕ) : ∀ (n : ℕ) (acc : List Char) (c : Char),
    c ∈ natDigitsAux fuel n acc → c ∈ acc ∨ c.isDigit = true := by
  induction fuel with
  | zero => intro n acc c h; exact Or.inl (by simpa [natDigitsAux] using h)
  | succ f ih =>
    intro n acc c h
    by_cases hn : n = 0
    · simp only [natDigitsAux, if_pos hn] at h
      exact Or.inl h
    · simp only [natDigitsAux, if_neg hn] at h
      rcases ih (n / 10) (digitChar (n % 10) :: acc) c h with h1 | h2
      · rcases List.mem_cons.mp h1 with h3 | h3
        · exact Or.inr (by rw [h3]; exact digitChar_isDigit _ (Nat.mod_lt n (by norm_num)))
        · exact Or.inl h3
      · exact Or.inr h2

/-- C9: for each of the orchestrator's four type prefixes, every generated
token is the prefix, an underscore, an 8-digit timestamp fragment, an
underscore, and a random suffix of at most 4 characters, and its total length
stays strictly below the platform's 36-character limit.  (`Date.now()` has
had at least 8 decimal digits — i.e. is at least 10^7 — since 1970.) -/
theorem C9_generateToken_shape (pfx : String) (now : ℕ) (rnd : String)
    (hpfx : pfx ∈ ["fund", "prod", "user", "card"]) (hnow : 10 ^ 7 ≤ now) :
    ∃ t r, generateToken pfx now rnd = pfx ++ "_" ++ t ++ "_" ++ r
      ∧ t.length = 8 ∧ (∀ c ∈ t.toList, c.isDigit = true) ∧ r.length ≤ 4
      ∧ (generateToken pfx now rnd).length < 36 := by
  have hn0 : now ≠ 0 := by
    have h1 : (1 : ℕ) ≤ 10 ^ 7 := by norm_num
    omega
  have hlen8 : 8 ≤ (natDigits now).length := natDigits_length_ge 7 now hnow
  have hts : natToString now = String.mk (natDigits now) := by simp [natToString, hn0]
  have htlen : (jsSliceLast (natToString now) 8).length = 8 := by
    rw [hts]
    show ((natDigits now).drop ((natDigits now).length - 8)).length = 8
    rw [List.length_drop]
    omega
  have hrlen : (jsSubstring rnd 2 6).length ≤ 4 := by
    show ((rnd.toList.drop 2).take (6 - 2)).length ≤ 4
    rw [List.length_take]
    exact min_le_left _ _
  have hplen : pfx.length = 4 := by fin_cases hpfx <;> rfl
  refine ⟨jsSliceLast (natToString now) 8, jsSubstring rnd 2 6, rfl, htlen, ?_, hrlen, ?_⟩
  · intro c hc
    have hc2 : c ∈ (natDigits now).drop ((natDigits now).length - 8) := by
      rw [hts] at hc; exact hc
    have hc3 : c ∈ natDigits now := List.drop_subset _ _ hc2
    rcases natDigitsAux_all_digits (now + 1) now [] c hc3 with h | h
    · simp at h
    · exact h
  · show (pfx ++ "_" ++ jsSliceLast (natToString now) 8 ++ "_" ++ jsSubstring rnd 2 6).length < 36
    rw [String.length_append, String.length_append, String.length_append,
      String.length_append, hplen, htlen]
    have hu : ("_" : String).length = 1 := rfl
    rw [hu]
    omega

/-- witness for C9 at a concrete prefix, timestamp and random string. -/
theorem C9_generateToken_shape_witness :
    ("fund" ∈ ["fund", "prod", "user", "card"]) ∧ 10 ^ 7 ≤ 12345678901234
    ∧ ∃ t r, generateToken "fund" 12345678901234 "0.q83hd2k" = "fund" ++ "_" ++ t ++ "_" ++ r
      ∧ t.length = 8 ∧ (∀ c ∈ t.toList, c.isDigit = true) ∧ r.length ≤ 4
      ∧ (generateToken "fund" 12345678901234 "0.q83hd2k").length < 36 :=
  ⟨by decide, by norm_num,
   C9_generateToken_shape "fund" 12345678901234 "0.q83hd2k" (by decide) (by norm_num)⟩

end JIT
